import Mathlib

/-
Verification of the Marketserver repository (a WebSocket marketplace
listing server backed by SQLite). The repository contains five near
duplicate variants of the same design; `src/server.js` is the canonical
variant, and `src/unnamed/part_002` is a callback-style variant that is
embedded separately where claims cite it.

Modelling conventions for the shallow embedding:
* JS runtime values appearing in message payloads are `Value`
  (null, string, number, boolean); numbers are modelled as `Int`.
  A missing object property is `Option.none` at the access site.
* A JS object is an association list with first-match lookup, so a
  spread that overrides keys is modelled by prepending bindings.
* A WebSocket session handle is a `Nat`; `isOpen` models the
  `readyState === WebSocket.OPEN` test used by the broadcast helper.
* `dbOk` models whether the SQLite call of the current operation
  succeeds; `now` models `Date.now()`; `fresh` models `uuidv4()`.
* Node runs the handler of one message to completion between awaits on
  a single thread, so one inbound event is one atomic step.
-/

namespace Marketserver

/-- JS values carried in message payloads: null, strings, numbers
(modelled as integers) and booleans. -/
inductive Value where
  | vNull : Value
  | vStr : String → Value
  | vNum : Int → Value
  | vBool : Bool → Value
deriving DecidableEq

/-- JS truthiness of a value, as used by tests such as
`payload.timestamp || Date.now()` and `if (!id)`. -/
def Value.truthy : Value → Bool
  | .vNull => false
  | .vStr s => !(s == "")
  | .vNum n => !(n == 0)
  | .vBool b => b

/-- JS `String(v)` coercion, as used by the validation loop in
`src/server.js` (`String(payload[field]).trim()`). -/
def Value.toJsString : Value → String
  | .vNull => "null"
  | .vStr s => s
  | .vNum n => toString n
  | .vBool b => if b then "true" else "false"

/-- A JS object as an association list with first-match lookup. -/
abbrev Obj := List (String × Value)

/-- Property lookup; `none` models a missing property (undefined). -/
def Obj.get (o : Obj) (k : String) : Option Value :=
  List.lookup k o

/-- Property lookup defaulting to null; models reading a property and
binding it as an SQL parameter (missing binds as NULL). -/
def Obj.getD (o : Obj) (k : String) : Value :=
  (Obj.get o k).getD Value.vNull

/-- Truthiness of a possibly missing property (undefined is falsy). -/
def truthyProp (o : Obj) (k : String) : Bool :=
  match Obj.get o k with
  | some v => v.truthy
  | none => false

/-- JS `a || b` where `a` is a possibly missing property. -/
def jsOr (a : Option Value) (b : Value) : Value :=
  match a with
  | some v => if v.truthy then v else b
  | none => b

/-- A row of the `products` table of `src/server.js` (thirteen columns,
in schema order). -/
structure Row where
  id : Value
  name : Value
  category : Value
  price : Value
  description : Value
  condition : Value
  negotiable : Value
  location : Value
  paymentOption : Value
  sellerWhatsApp : Value
  sellerId : Value
  imageUrl : Value
  timestamp : Value
deriving DecidableEq

/-- Numeric sort key of a stored timestamp value; the source always
compares the INTEGER `timestamp` column, non-numeric values get key 0. -/
def tsKey : Value → Int
  | .vNum n => n
  | _ => 0

/-- Recency order used by `ORDER BY timestamp DESC`: `a` is at least as
recent as `b`. -/
def recencyGe (a b : Row) : Prop :=
  tsKey b.timestamp ≤ tsKey a.timestamp

instance : DecidableRel recencyGe := fun a b =>
  inferInstanceAs (Decidable (tsKey b.timestamp ≤ tsKey a.timestamp))

instance : IsTotal Row recencyGe :=
  ⟨fun a b => (le_total (tsKey b.timestamp) (tsKey a.timestamp)).imp id id⟩

instance : IsTrans Row recencyGe :=
  ⟨fun _ _ _ h1 h2 => le_trans h2 h1⟩

/-- `SELECT * FROM products ORDER BY timestamp DESC`. -/
def sortDesc (s : List Row) : List Row :=
  List.insertionSort recencyGe s

/-- Outbound server-to-client messages of `src/server.js`; the
constructor argument is the JSON `payload` field. -/
inductive OutMsg where
  | allProducts (rows : List Row)
  | myProductsList (rows : List Row)
  | addSuccess (pid : Value)
  | updateSuccess (pid : Value)
  | deleteSuccess (pid : Value)
  | productAdded (p : Obj)
  | productUpdated (p : Obj)
  | productDeleted (pid : Value)
  | errorMsg (text : String)
deriving DecidableEq

/-- A decoded inbound envelope: the `type` discriminator and the
`payload` object. -/
structure Envelope where
  type_ : String
  payload : Obj
deriving DecidableEq

/-- The broadcast helper of `src/server.js`: send to every client in
the set whose channel is open, except `excludeWs`. -/
def broadcast (isOpen : Nat → Bool) (clients : List Nat)
    (excludeWs : Option Nat) (m : OutMsg) : List (Nat × OutMsg) :=
  (clients.filter (fun c => isOpen c && !(decide (excludeWs = some c)))).map
    (fun c => (c, m))

/-- Required fields checked by the ADD_PRODUCT validation loop. -/
def requiredFields : List String :=
  ["name", "category", "price", "description", "condition", "location",
   "paymentOption", "sellerWhatsApp", "sellerId", "imageUrl"]

/-- Whitespace characters removed by the JS trim call. -/
def isWsChar (c : Char) : Bool :=
  c == ' ' || c == '\t' || c == '\n' || c == '\r'

/-- JS `String.prototype.trim`: strip leading and trailing whitespace
(written structurally over the character list so it computes). -/
def trimStr (s : String) : String :=
  String.mk (((s.toList.dropWhile isWsChar).reverse.dropWhile isWsChar).reverse)

/-- One required-field check:
`payload[field] === undefined || payload[field] === null ||
String(payload[field]).trim() === ''`. -/
def fieldMissing (payload : Obj) (f : String) : Bool :=
  match Obj.get payload f with
  | none => true
  | some .vNull => true
  | some v => trimStr v.toJsString == ""

/-- `const newProductId = payload.id || uuidv4()`. -/
def addRowId (payload : Obj) (fresh : String) : Value :=
  jsOr (Obj.get payload "id") (.vStr fresh)

/-- `payload.timestamp || Date.now()`, used by both ADD_PRODUCT
(`newTimestamp`) and UPDATE_PRODUCT (`updatedTimestamp`). -/
def tsOf (payload : Obj) (now : Int) : Value :=
  jsOr (Obj.get payload "timestamp") (.vNum now)

/-- `const negotiableValue = payload.negotiable ? 1 : 0`. -/
def negVal (payload : Obj) : Value :=
  if truthyProp payload "negotiable" then .vNum 1 else .vNum 0

/-- The row inserted by the ADD_PRODUCT INSERT statement. -/
def addRow (payload : Obj) (now : Int) (fresh : String) : Row where
  id := addRowId payload fresh
  name := Obj.getD payload "name"
  category := Obj.getD payload "category"
  price := Obj.getD payload "price"
  description := Obj.getD payload "description"
  condition := Obj.getD payload "condition"
  negotiable := negVal payload
  location := Obj.getD payload "location"
  paymentOption := Obj.getD payload "paymentOption"
  sellerWhatsApp := Obj.getD payload "sellerWhatsApp"
  sellerId := Obj.getD payload "sellerId"
  imageUrl := Obj.getD payload "imageUrl"
  timestamp := tsOf payload now

/-- The object broadcast as PRODUCT_ADDED: the client payload spread
with id, negotiable and timestamp overriding it. -/
def addedObj (payload : Obj) (now : Int) (fresh : String) : Obj :=
  ("id", addRowId payload fresh) :: ("negotiable", negVal payload) ::
    ("timestamp", tsOf payload now) :: payload

/-- ADD_PRODUCT case of the message handler of `src/server.js`.
Returns the new store contents and the list of (recipient, message)
deliveries, in emission order. -/
def handleAdd (isOpen : Nat → Bool) (clients : List Nat) (ws : Nat)
    (payload : Obj) (dbOk : Bool) (now : Int) (fresh : String)
    (store : List Row) : List Row × List (Nat × OutMsg) :=
  match requiredFields.find? (fun f => fieldMissing payload f) with
  | some f =>
    (store, [(ws, .errorMsg ("Missing or empty required field: " ++ f))])
  | none =>
    if dbOk then
      (store ++ [addRow payload now fresh],
       broadcast isOpen clients (some ws)
           (.productAdded (addedObj payload now fresh))
         ++ [(ws, .addSuccess (addRowId payload fresh))])
    else
      (store, [(ws, .errorMsg "Server error processing ADD_PRODUCT request.")])

/-- The column assignments of the UPDATE_PRODUCT UPDATE statement
applied to one matching row: every column except `id` is overwritten
from the payload, including `sellerId`. -/
def updRow (payload : Obj) (now : Int) (r : Row) : Row :=
  { r with
    name := Obj.getD payload "name"
    category := Obj.getD payload "category"
    price := Obj.getD payload "price"
    description := Obj.getD payload "description"
    condition := Obj.getD payload "condition"
    negotiable := negVal payload
    location := Obj.getD payload "location"
    paymentOption := Obj.getD payload "paymentOption"
    sellerWhatsApp := Obj.getD payload "sellerWhatsApp"
    sellerId := Obj.getD payload "sellerId"
    imageUrl := Obj.getD payload "imageUrl"
    timestamp := tsOf payload now }

/-- The object broadcast as PRODUCT_UPDATED: the client payload spread
with negotiable and timestamp overriding it. -/
def updatedObj (payload : Obj) (now : Int) : Obj :=
  ("negotiable", negVal payload) :: ("timestamp", tsOf payload now) :: payload

/-- UPDATE_PRODUCT case of the message handler of `src/server.js`. -/
def handleUpdate (isOpen : Nat → Bool) (clients : List Nat) (ws : Nat)
    (payload : Obj) (dbOk : Bool) (now : Int)
    (store : List Row) : List Row × List (Nat × OutMsg) :=
  if !(truthyProp payload "id") then
    (store, [(ws, .errorMsg "Product ID is required for update.")])
  else if dbOk then
    (store.map (fun r =>
       if r.id = Obj.getD payload "id" then updRow payload now r else r),
     broadcast isOpen clients (some ws)
         (.productUpdated (updatedObj payload now))
       ++ [(ws, .updateSuccess (Obj.getD payload "id"))])
  else
    (store, [(ws, .errorMsg "Server error processing UPDATE_PRODUCT request.")])

/-- DELETE_PRODUCT case of the message handler of `src/server.js`; the
DELETE runs and PRODUCT_DELETED is broadcast whether or not a row with
that id exists. -/
def handleDelete (isOpen : Nat → Bool) (clients : List Nat) (ws : Nat)
    (payload : Obj) (dbOk : Bool)
    (store : List Row) : List Row × List (Nat × OutMsg) :=
  if !(truthyProp payload "id") then
    (store, [(ws, .errorMsg "Product ID is required for deletion.")])
  else if dbOk then
    (store.filter (fun r => !(decide (r.id = Obj.getD payload "id"))),
     broadcast isOpen clients (some ws)
         (.productDeleted (Obj.getD payload "id"))
       ++ [(ws, .deleteSuccess (Obj.getD payload "id"))])
  else
    (store, [(ws, .errorMsg "Server error processing DELETE_PRODUCT request.")])

/-- GET_MY_PRODUCTS case of the message handler of `src/server.js`. -/
def handleGetMy (ws : Nat) (payload : Obj) (dbOk : Bool)
    (store : List Row) : List Row × List (Nat × OutMsg) :=
  if !(truthyProp payload "sellerId") then
    (store, [(ws, .errorMsg "Seller ID is required to get my products.")])
  else if dbOk then
    (store,
     [(ws, .myProductsList (sortDesc (store.filter
         (fun r => decide (r.sellerId = Obj.getD payload "sellerId")))))])
  else
    (store, [(ws, .errorMsg "Server error processing GET_MY_PRODUCTS request.")])

/-- GET_ALL_PRODUCTS case of the message handler of `src/server.js`. -/
def handleGetAll (ws : Nat) (dbOk : Bool)
    (store : List Row) : List Row × List (Nat × OutMsg) :=
  if dbOk then
    (store, [(ws, .allProducts (sortDesc store))])
  else
    (store, [(ws, .errorMsg "Server error processing GET_ALL_PRODUCTS request.")])

/-- The `ws.on message` handler of `src/server.js`: JSON decode failure
sends a sender-only format error; otherwise the switch dispatches on
the `type` field, and unknown types get a sender-only error naming the
type. -/
def handleMessage (isOpen : Nat → Bool) (clients : List Nat) (ws : Nat)
    (raw : Option Envelope) (dbOk : Bool) (now : Int) (fresh : String)
    (store : List Row) : List Row × List (Nat × OutMsg) :=
  match raw with
  | none => (store, [(ws, .errorMsg "Invalid message format.")])
  | some env =>
    if env.type_ = "ADD_PRODUCT" then
      handleAdd isOpen clients ws env.payload dbOk now fresh store
    else if env.type_ = "UPDATE_PRODUCT" then
      handleUpdate isOpen clients ws env.payload dbOk now store
    else if env.type_ = "DELETE_PRODUCT" then
      handleDelete isOpen clients ws env.payload dbOk store
    else if env.type_ = "GET_MY_PRODUCTS" then
      handleGetMy ws env.payload dbOk store
    else if env.type_ = "GET_ALL_PRODUCTS" then
      handleGetAll ws dbOk store
    else
      (store, [(ws, .errorMsg ("Unknown message type: " ++ env.type_))])

/-- Connection-level events of the gateway of `src/server.js`. The
`dbOk`, `now` and `fresh` data model the environment of the SQLite and
clock calls made while processing the event. -/
inductive Event where
  | connect (sid : Nat) (dbOk : Bool)
  | disconnect (sid : Nat)
  | message (sid : Nat) (raw : Option Envelope) (dbOk : Bool)
      (now : Int) (fresh : String)

/-- The session the event belongs to. -/
def Event.actor : Event → Nat
  | .connect sid _ => sid
  | .disconnect sid => sid
  | .message sid _ _ _ _ => sid

/-- Whether the event is an inbound message. -/
def Event.isMsg : Event → Bool
  | .message _ _ _ _ _ => true
  | _ => false

/-- Server state: the `clients` set (as a duplicate-free list), the
`products` table contents, and the open flag of each channel. -/
structure ServerState where
  clients : List Nat
  store : List Row
  isOpen : Nat → Bool

/-- One gateway step of `src/server.js`: connect registers the session
and pushes the full ordered catalog to it alone (or a sender-only
error when the SELECT fails); close deregisters; a message runs the
message handler. -/
def step (st : ServerState) : Event → ServerState × List (Nat × OutMsg)
  | .connect sid dbOk =>
    ({ st with clients :=
        if sid ∈ st.clients then st.clients else st.clients ++ [sid] },
     if dbOk then [(sid, .allProducts (sortDesc st.store))]
     else [(sid, .errorMsg "Failed to load products.")])
  | .disconnect sid =>
    ({ st with clients := st.clients.filter (fun c => !(decide (c = sid))) },
     [])
  | .message sid raw dbOk now fresh =>
    let r := handleMessage st.isOpen st.clients sid raw dbOk now fresh st.store
    ({ st with store := r.1 }, r.2)

/-- Run a sequence of events, accumulating all deliveries in order. -/
def run (st : ServerState) : List Event → ServerState × List (Nat × OutMsg)
  | [] => (st, [])
  | e :: evs =>
    let r := step st e
    let r2 := run r.1 evs
    (r2.1, r.2 ++ r2.2)

/-- The messages delivered to one session, in order. -/
def deliveredTo (sid : Nat) (outs : List (Nat × OutMsg)) : List OutMsg :=
  (outs.filter (fun p => decide (p.1 = sid))).map (fun p => p.2)

/-- Whether a message is a change notification (a broadcast kind). -/
def isNotify : OutMsg → Bool
  | .productAdded _ => true
  | .productUpdated _ => true
  | .productDeleted _ => true
  | _ => false

/-- Whether a message is a success acknowledgment to the sender. -/
def isAck : OutMsg → Bool
  | .addSuccess _ => true
  | .updateSuccess _ => true
  | .deleteSuccess _ => true
  | _ => false

/-
Embedding of the `src/unnamed/part_002` variant. Its `products` table
has twelve columns (no `description`), its broadcast helper sends to
every open client with no exclusion, its write callbacks ignore the
error argument, and it never sends acks or error messages for writes.
-/

/-- A row of the `products` table of `src/unnamed/part_002`, in schema
order (this variant has no description column). -/
structure Row2 where
  id : Value
  name : Value
  category : Value
  price : Value
  condition : Value
  negotiable : Value
  location : Value
  paymentOption : Value
  sellerWhatsApp : Value
  sellerId : Value
  imageUrl : Value
  timestamp : Value
deriving DecidableEq

/-- The `data` field of a part_002 envelope: an object for add and
update commands, a primitive value (the id or sellerId) for delete and
get_my_products. -/
inductive Data2 where
  | obj (o : Obj)
  | prim (v : Value)
deriving DecidableEq

/-- Property access on the data field; accessing a property of a
primitive yields undefined. -/
def Data2.get : Data2 → String → Option Value
  | .obj o, k => Obj.get o k
  | .prim _, _ => none

/-- Property access defaulting to null at the SQL parameter binding. -/
def Data2.getD (d : Data2) (k : String) : Value :=
  (d.get k).getD Value.vNull

/-- The primitive SQL parameter for delete and get_my_products; an
object in that position fails the parameter binding, modelled as null. -/
def Data2.param : Data2 → Option Value
  | .prim v => some v
  | .obj _ => none

/-- A decoded inbound envelope of `src/unnamed/part_002`. -/
structure Envelope2 where
  type_ : String
  data : Data2
deriving DecidableEq

/-- Outbound messages of `src/unnamed/part_002`; broadcast payloads
carry the parsed client data verbatim. -/
inductive OutMsg2 where
  | allProducts2 (rows : List Row2)
  | myProducts2 (rows : List Row2)
  | productAdded2 (d : Data2)
  | productUpdated2 (d : Data2)
  | productDeleted2 (d : Data2)
deriving DecidableEq

/-- The broadcast helper of `src/unnamed/part_002`: every open client
receives the message, with no excluded session. -/
def broadcastP2 (isOpen : Nat → Bool) (clients : List Nat)
    (m : OutMsg2) : List (Nat × OutMsg2) :=
  (clients.filter isOpen).map (fun c => (c, m))

/-- Recency order for part_002 rows. -/
def recencyGeP2 (a b : Row2) : Prop :=
  tsKey b.timestamp ≤ tsKey a.timestamp

instance : DecidableRel recencyGeP2 := fun a b =>
  inferInstanceAs (Decidable (tsKey b.timestamp ≤ tsKey a.timestamp))

/-- `ORDER BY timestamp DESC` over part_002 rows. -/
def sortDescP2 (s : List Row2) : List Row2 :=
  List.insertionSort recencyGeP2 s

/-- The row inserted by the part_002 add_product INSERT statement. -/
def addRowP2 (d : Data2) : Row2 where
  id := d.getD "id"
  name := d.getD "name"
  category := d.getD "category"
  price := d.getD "price"
  condition := d.getD "condition"
  negotiable := if (match d.get "negotiable" with
    | some v => v.truthy
    | none => false) then .vNum 1 else .vNum 0
  location := d.getD "location"
  paymentOption := d.getD "paymentOption"
  sellerWhatsApp := d.getD "sellerWhatsApp"
  sellerId := d.getD "sellerId"
  imageUrl := d.getD "imageUrl"
  timestamp := d.getD "timestamp"

/-- The column assignments of the part_002 update_product UPDATE
statement: this variant does not overwrite `sellerId`. -/
def updRowP2 (d : Data2) (r : Row2) : Row2 :=
  { r with
    name := d.getD "name"
    category := d.getD "category"
    price := d.getD "price"
    condition := d.getD "condition"
    negotiable := if (match d.get "negotiable" with
      | some v => v.truthy
      | none => false) then .vNum 1 else .vNum 0
    location := d.getD "location"
    paymentOption := d.getD "paymentOption"
    sellerWhatsApp := d.getD "sellerWhatsApp"
    imageUrl := d.getD "imageUrl"
    timestamp := d.getD "timestamp" }

/-- The `ws.on message` handler of `src/unnamed/part_002`. A JSON
decode failure is only logged (nothing is sent). The write callbacks
passed to `db.run` ignore the error argument, so add, update and
delete broadcast their notification to every open client, sender
included, whether or not the write succeeded; the INSERT fails on a
duplicate primary key `id`. Unknown types fall through the if chain
and nothing at all is sent. -/
def handleMessageP2 (isOpen : Nat → Bool) (clients : List Nat) (ws : Nat)
    (raw : Option Envelope2) (dbOk : Bool)
    (store : List Row2) : List Row2 × List (Nat × OutMsg2) :=
  match raw with
  | none => (store, [])
  | some env =>
    if env.type_ = "add_product" then
      let ok := dbOk &&
        store.all (fun r => !(decide (r.id = env.data.getD "id")))
      ((if ok then store ++ [addRowP2 env.data] else store),
       broadcastP2 isOpen clients (.productAdded2 env.data))
    else if env.type_ = "update_product" then
      ((if dbOk then
          store.map (fun r =>
            if r.id = env.data.getD "id" then updRowP2 env.data r else r)
        else store),
       broadcastP2 isOpen clients (.productUpdated2 env.data))
    else if env.type_ = "delete_product" then
      ((match env.data.param, dbOk with
        | some v, true => store.filter (fun r => !(decide (r.id = v)))
        | _, _ => store),
       broadcastP2 isOpen clients (.productDeleted2 env.data))
    else if env.type_ = "get_my_products" then
      (store,
       match env.data.param, dbOk with
       | some v, true =>
         [(ws, .myProducts2 (sortDescP2 (store.filter
             (fun r => decide (r.sellerId = v)))))]
       | _, _ => [])
    else
      (store, [])

/-
Shared lemmas about the broadcast helper, the destinations of handler
outputs, and runs of event traces.
-/

theorem mem_broadcast {isOpen : Nat → Bool} {clients : List Nat}
    {ex : Option Nat} {m0 : OutMsg} {c : Nat} {m : OutMsg}
    (h : (c, m) ∈ broadcast isOpen clients ex m0) :
    m = m0 ∧ c ∈ clients ∧ isOpen c = true ∧ ex ≠ some c := by
  simp only [broadcast, List.mem_map, List.mem_filter, Bool.and_eq_true,
    Bool.not_eq_true', decide_eq_false_iff_not] at h
  obtain ⟨a, ⟨ha, ho, hex⟩, he⟩ := h
  injection he with h1 h2
  subst h1
  subst h2
  exact ⟨rfl, ha, ho, hex⟩

theorem broadcast_mem {isOpen : Nat → Bool} {clients : List Nat}
    {ex : Option Nat} {c : Nat} (m0 : OutMsg)
    (hc : c ∈ clients) (ho : isOpen c = true) (hex : ex ≠ some c) :
    (c, m0) ∈ broadcast isOpen clients ex m0 := by
  simp only [broadcast, List.mem_map, List.mem_filter, Bool.and_eq_true,
    Bool.not_eq_true', decide_eq_false_iff_not]
  exact ⟨c, ⟨hc, ho, hex⟩, rfl⟩

theorem handleAdd_dest {isOpen : Nat → Bool} {clients : List Nat} {ws : Nat}
    {payload : Obj} {dbOk : Bool} {now : Int} {fresh : String}
    {store : List Row} {c : Nat} {m : OutMsg}
    (h : (c, m) ∈ (handleAdd isOpen clients ws payload dbOk now fresh store).2) :
    c = ws ∨ c ∈ clients := by
  cases hf : requiredFields.find? (fun f => fieldMissing payload f) with
  | some f =>
    simp only [handleAdd, hf, List.mem_singleton] at h
    injection h with h1 _
    exact Or.inl h1
  | none =>
    cases dbOk with
    | false =>
      simp only [handleAdd, hf, Bool.false_eq_true, if_false,
        List.mem_singleton] at h
      injection h with h1 _
      exact Or.inl h1
    | true =>
      simp only [handleAdd, hf, if_true, List.mem_append,
        List.mem_singleton] at h
      rcases h with h | h
      · exact Or.inr (mem_broadcast h).2.1
      · injection h with h1 _
        exact Or.inl h1

theorem handleUpdate_dest {isOpen : Nat → Bool} {clients : List Nat}
    {ws : Nat} {payload : Obj} {dbOk : Bool} {now : Int}
    {store : List Row} {c : Nat} {m : OutMsg}
    (h : (c, m) ∈ (handleUpdate isOpen clients ws payload dbOk now store).2) :
    c = ws ∨ c ∈ clients := by
  unfold handleUpdate at h
  split at h
  · simp only [List.mem_singleton] at h
    injection h with h1 _
    exact Or.inl h1
  · split at h
    · simp only [List.mem_append, List.mem_singleton] at h
      rcases h with h | h
      · exact Or.inr (mem_broadcast h).2.1
      · injection h with h1 _
        exact Or.inl h1
    · simp only [List.mem_singleton] at h
      injection h with h1 _
      exact Or.inl h1

theorem handleDelete_dest {isOpen : Nat → Bool} {clients : List Nat}
    {ws : Nat} {payload : Obj} {dbOk : Bool}
    {store : List Row} {c : Nat} {m : OutMsg}
    (h : (c, m) ∈ (handleDelete isOpen clients ws payload dbOk store).2) :
    c = ws ∨ c ∈ clients := by
  unfold handleDelete at h
  split at h
  · simp only [List.mem_singleton] at h
    injection h with h1 _
    exact Or.inl h1
  · split at h
    · simp only [List.mem_append, List.mem_singleton] at h
      rcases h with h | h
      · exact Or.inr (mem_broadcast h).2.1
      · injection h with h1 _
        exact Or.inl h1
    · simp only [List.mem_singleton] at h
      injection h with h1 _
      exact Or.inl h1

theorem handleGetMy_dest {ws : Nat} {payload : Obj} {dbOk : Bool}
    {store : List Row} {c : Nat} {m : OutMsg}
    (h : (c, m) ∈ (handleGetMy ws payload dbOk store).2) :
    c = ws ∨ c ∈ [] := by
  unfold handleGetMy at h
  split at h
  · simp only [List.mem_singleton] at h
    injection h with h1 _
    exact Or.inl h1
  · split at h <;>
    · simp only [List.mem_singleton] at h
      injection h with h1 _
      exact Or.inl h1

theorem handleGetAll_dest {ws : Nat} {dbOk : Bool}
    {store : List Row} {c : Nat} {m : OutMsg}
    (h : (c, m) ∈ (handleGetAll ws dbOk store).2) :
    c = ws ∨ c ∈ [] := by
  unfold handleGetAll at h
  split at h <;>
  · simp only [List.mem_singleton] at h
    injection h with h1 _
    exact Or.inl h1

theorem handleMessage_dest {isOpen : Nat → Bool} {clients : List Nat}
    {ws : Nat} {raw : Option Envelope} {dbOk : Bool} {now : Int}
    {fresh : String} {store : List Row} {c : Nat} {m : OutMsg}
    (h : (c, m) ∈ (handleMessage isOpen clients ws raw dbOk now fresh store).2) :
    c = ws ∨ c ∈ clients := by
  cases raw with
  | none =>
    simp only [handleMessage, List.mem_singleton] at h
    injection h with h1 _
    exact Or.inl h1
  | some env =>
    simp only [handleMessage] at h
    split at h
    · exact handleAdd_dest h
    · split at h
      · exact handleUpdate_dest h
      · split at h
        · exact handleDelete_dest h
        · split at h
          · rcases handleGetMy_dest h with h1 | h1
            · exact Or.inl h1
            · simp at h1
          · split at h
            · rcases handleGetAll_dest h with h1 | h1
              · exact Or.inl h1
              · simp at h1
            · simp only [List.mem_singleton] at h
              injection h with h1 _
              exact Or.inl h1

theorem step_dest {st : ServerState} {e : Event} {c : Nat} {m : OutMsg}
    (h : (c, m) ∈ (step st e).2) : c = e.actor ∨ c ∈ st.clients := by
  cases e with
  | connect sid dbOk =>
    cases dbOk <;>
      simp only [step, Bool.false_eq_true, if_false, if_true,
        List.mem_singleton, Event.actor] at h ⊢ <;>
      · injection h with h1 _
        exact Or.inl h1
  | disconnect sid =>
    simp only [step, List.not_mem_nil] at h
  | message sid raw dbOk now fresh =>
    simp only [step] at h
    simpa only [Event.actor] using handleMessage_dest h

theorem step_not_mem {st : ServerState} {e : Event} {sid : Nat}
    (h1 : sid ∉ st.clients) (h2 : e.actor ≠ sid) :
    sid ∉ (step st e).1.clients := by
  cases e with
  | connect s2 dbOk =>
    simp only [Event.actor] at h2
    simp only [step]
    split
    · exact h1
    · intro hmem
      rcases List.mem_append.mp hmem with h | h
      · exact h1 h
      · simp only [List.mem_singleton] at h
        exact h2 h.symm
  | disconnect s2 =>
    simp only [step]
    intro hmem
    exact h1 (List.mem_of_mem_filter hmem)
  | message sid2 raw dbOk now fresh =>
    simpa only [step] using h1

theorem run_append (st : ServerState) (evs1 evs2 : List Event) :
    run st (evs1 ++ evs2) =
      ((run (run st evs1).1 evs2).1,
       (run st evs1).2 ++ (run (run st evs1).1 evs2).2) := by
  induction evs1 generalizing st with
  | nil => simp [run]
  | cons e t ih => simp [run, ih, List.append_assoc]

theorem deliveredTo_append (sid : Nat) (o1 o2 : List (Nat × OutMsg)) :
    deliveredTo sid (o1 ++ o2) = deliveredTo sid o1 ++ deliveredTo sid o2 := by
  simp [deliveredTo, List.filter_append]

theorem deliveredTo_eq_nil {sid : Nat} {outs : List (Nat × OutMsg)}
    (h : ∀ c m, (c, m) ∈ outs → c ≠ sid) : deliveredTo sid outs = [] := by
  unfold deliveredTo
  rw [List.map_eq_nil_iff, List.filter_eq_nil_iff]
  intro p hp
  simp only [decide_eq_true_eq]
  exact h p.1 p.2 hp

theorem run_fresh {sid : Nat} {st : ServerState} {evs : List Event}
    (h1 : sid ∉ st.clients) (h2 : ∀ e ∈ evs, e.actor ≠ sid) :
    deliveredTo sid (run st evs).2 = [] ∧
      sid ∉ (run st evs).1.clients := by
  induction evs generalizing st with
  | nil => exact ⟨rfl, h1⟩
  | cons e t ih =>
    have hact : e.actor ≠ sid := h2 e (List.mem_cons_self e t)
    have hstep : sid ∉ (step st e).1.clients := step_not_mem h1 hact
    have hdel : deliveredTo sid (step st e).2 = [] := by
      apply deliveredTo_eq_nil
      intro c m hm hc
      subst hc
      rcases step_dest hm with h | h
      · exact hact h.symm
      · exact h1 h
    have ht := ih hstep (fun e2 he2 => h2 e2 (List.mem_cons_of_mem e he2))
    refine ⟨?_, by simpa only [run] using ht.2⟩
    simp only [run, deliveredTo_append, hdel, ht.1, List.append_nil]

/-
Claim C1: behaviour of a create whose persistence write fails.
The part_002 variant passes a success callback to `db.run` that
ignores the error argument, so a failed INSERT (for example a
duplicate primary key) still broadcasts `product_added` to every open
session, including the sender, and the sender gets no error message.
-/

/-- A row already present in the part_002 store (the seeded p001). -/
def c1Row : Row2 where
  id := .vStr "p001"
  name := .vStr "Nikon Camera"
  category := .vStr "Electronics"
  price := .vNum 180000
  condition := .vStr "New"
  negotiable := .vNum 1
  location := .vStr "Abuja"
  paymentOption := .vStr "On Delivery"
  sellerWhatsApp := .vStr "08034567891"
  sellerId := .vStr "user_demo_3"
  imageUrl := .vStr "/uploads/camera.jpg"
  timestamp := .vNum 1000

/-- A create command reusing the already-present id p001, so the
INSERT violates the primary key and fails. -/
def c1Data : Data2 := .obj
  [("id", .vStr "p001"), ("name", .vStr "Duplicate"),
   ("category", .vStr "Electronics"), ("price", .vNum 5),
   ("condition", .vStr "New"), ("negotiable", .vBool true),
   ("location", .vStr "Lagos"), ("paymentOption", .vStr "Cash"),
   ("sellerWhatsApp", .vStr "080"), ("sellerId", .vStr "u9"),
   ("imageUrl", .vStr "/img/x.jpg"), ("timestamp", .vNum 2000)]

/-- C1: in the part_002 variant, a CreateListing whose persistence
write fails (duplicate primary key p001) leaves the store unchanged
but still broadcasts the created notification to every open session,
the sender (session 0) included, and the sender receives no error
message at all — contradicting the claimed sender-only error with no
broadcast. -/
theorem c1_part002_failed_insert_still_broadcasts :
    handleMessageP2 (fun _ => true) [0, 1] 0
        (some { type_ := "add_product", data := c1Data }) true [c1Row] =
      ([c1Row],
       [(0, .productAdded2 c1Data), (1, .productAdded2 c1Data)]) := by
  decide

/-
Claim C2: origin and monotonicity of the stored timestamp.
`src/server.js` computes the timestamp as `payload.timestamp ||
Date.now()` for both ADD_PRODUCT and UPDATE_PRODUCT, so a truthy
client value is stored verbatim and nothing enforces an increase.
-/

/-- A fully valid create payload carrying client timestamp 5. -/
def c2AddPayload : Obj :=
  [("id", .vStr "p1"), ("name", .vStr "Camera"),
   ("category", .vStr "Electronics"), ("price", .vNum 180000),
   ("description", .vStr "x"), ("condition", .vStr "New"),
   ("location", .vStr "Lagos"), ("paymentOption", .vStr "Cash"),
   ("sellerWhatsApp", .vStr "080"), ("sellerId", .vStr "u1"),
   ("imageUrl", .vStr "/img/a.jpg"), ("timestamp", .vNum 5)]

/-- An update of the same listing carrying the smaller client
timestamp 3. -/
def c2UpdPayload : Obj :=
  [("id", .vStr "p1"), ("name", .vStr "Camera"),
   ("category", .vStr "Electronics"), ("price", .vNum 170000),
   ("description", .vStr "x"), ("condition", .vStr "New"),
   ("location", .vStr "Lagos"), ("paymentOption", .vStr "Cash"),
   ("sellerWhatsApp", .vStr "080"), ("sellerId", .vStr "u1"),
   ("imageUrl", .vStr "/img/a.jpg"), ("timestamp", .vNum 3)]

/-- Initial state for the C2 scenario: one connected session. -/
def c2State : ServerState where
  clients := [0]
  store := []
  isOpen := fun _ => true

/-- The C2 scenario: a successful create at server time 100 with
client timestamp 5, then a successful update at server time 200 with
client timestamp 3. -/
def c2Events : List Event :=
  [.message 0 (some ⟨"ADD_PRODUCT", c2AddPayload⟩) true 100 "f1",
   .message 0 (some ⟨"UPDATE_PRODUCT", c2UpdPayload⟩) true 200 "f2"]

/-- C2 counterexample: both mutations succeed (their acks are
delivered), yet the stored timestamp after the second mutation is the
client-sent 3 — taken verbatim from the payload rather than the server
times 100 and 200 — and it decreased from 5 to 3 instead of strictly
increasing. -/
theorem c2_counterexample_client_timestamp_stored :
    ((run c2State c2Events).1.store.map Row.timestamp = [Value.vNum 3]) ∧
    (0, OutMsg.addSuccess (.vStr "p1")) ∈ (run c2State c2Events).2 ∧
    (0, OutMsg.updateSuccess (.vStr "p1")) ∈ (run c2State c2Events).2 ∧
    Value.vNum 3 ≠ Value.vNum 200 ∧
    ¬ tsKey (Value.vNum 5) < tsKey (Value.vNum 3) := by
  decide

/-- C2 amended: for a successful CreateListing or UpdateListing, the
stored timestamp is the client payload value whenever that value is
present and truthy, and the server clock only otherwise (the `jsOr`
of the two); no monotonicity across mutations is guaranteed. -/
theorem c2_amended_timestamp_source (isOpen : Nat → Bool)
    (clients : List Nat) (ws : Nat) (payload : Obj) (now : Int)
    (fresh : String) (store : List Row) (r0 : Row)
    (hv : requiredFields.find? (fun f => fieldMissing payload f) = none)
    (hid : truthyProp payload "id" = true) :
    (handleMessage isOpen clients ws (some ⟨"ADD_PRODUCT", payload⟩)
        true now fresh store).1 = store ++ [addRow payload now fresh] ∧
    (addRow payload now fresh).timestamp =
      jsOr (Obj.get payload "timestamp") (.vNum now) ∧
    (handleMessage isOpen clients ws (some ⟨"UPDATE_PRODUCT", payload⟩)
        true now fresh store).1 =
      store.map (fun r =>
        if r.id = Obj.getD payload "id" then updRow payload now r else r) ∧
    (updRow payload now r0).timestamp =
      jsOr (Obj.get payload "timestamp") (.vNum now) := by
  refine ⟨?_, rfl, ?_, rfl⟩
  · simp [handleMessage, handleAdd, hv]
  · simp [handleMessage, handleUpdate, hid]

/-- C2 amended witness at a concrete valid payload. -/
theorem c2_amended_timestamp_source_witness :
    (requiredFields.find? (fun f => fieldMissing c2AddPayload f) = none) ∧
    (truthyProp c2AddPayload "id" = true) ∧
    ((handleMessage (fun _ => true) [0] 0 (some ⟨"ADD_PRODUCT", c2AddPayload⟩)
        true 100 "f1" []).1 = [] ++ [addRow c2AddPayload 100 "f1"] ∧
     (addRow c2AddPayload 100 "f1").timestamp =
       jsOr (Obj.get c2AddPayload "timestamp") (.vNum 100) ∧
     (handleMessage (fun _ => true) [0] 0 (some ⟨"UPDATE_PRODUCT", c2AddPayload⟩)
        true 100 "f1" []).1 =
       List.map (fun r =>
         if r.id = Obj.getD c2AddPayload "id" then updRow c2AddPayload 100 r
         else r) [] ∧
     (updRow c2AddPayload 100 (addRow c2AddPayload 100 "f1")).timestamp =
       jsOr (Obj.get c2AddPayload "timestamp") (.vNum 100)) :=
  ⟨by decide, by decide,
   c2_amended_timestamp_source (fun _ => true) [0] 0 c2AddPayload 100 "f1" []
     (addRow c2AddPayload 100 "f1") (by decide) (by decide)⟩

/-
Claim C4: CreateListing validation.
The validation loop of `src/server.js` only checks presence and
non-emptiness after trimming; there is no numeric parse or
non-negativity check, so a negative price passes validation.
-/

/-- A create payload with all required fields present but a negative
price. -/
def c4Payload : Obj :=
  [("id", .vStr "p9"), ("name", .vStr "Camera"),
   ("category", .vStr "Electronics"), ("price", .vNum (-5)),
   ("description", .vStr "x"), ("condition", .vStr "New"),
   ("location", .vStr "Lagos"), ("paymentOption", .vStr "Cash"),
   ("sellerWhatsApp", .vStr "080"), ("sellerId", .vStr "u1"),
   ("imageUrl", .vStr "/a.jpg"), ("timestamp", .vNum 9)]

/-- C4 counterexample: a CreateListing whose price is the negative
number -5 is accepted: the row is inserted, the created notification
is broadcast to the other session, and the sender gets a success ack —
contradicting the claim that a failed non-negativity check yields a
sender-only error with no insert and no broadcast. -/
theorem c4_counterexample_negative_price_accepted :
    handleMessage (fun _ => true) [0, 1] 0 (some ⟨"ADD_PRODUCT", c4Payload⟩)
        true 100 "f1" [] =
      ([addRow c4Payload 100 "f1"],
       [(1, .productAdded (addedObj c4Payload 100 "f1")),
        (0, .addSuccess (.vStr "p9"))]) ∧
    (addRow c4Payload 100 "f1").price = Value.vNum (-5) := by
  decide

/-- C4 amended: validation checks only that each of the ten required
fields is present, non-null and non-empty after trimming; when the
first such check fails, the sender alone receives an error naming
that field, nothing is inserted and nothing is broadcast. -/
theorem c4_amended_validation_failure (isOpen : Nat → Bool)
    (clients : List Nat) (ws : Nat) (payload : Obj) (dbOk : Bool)
    (now : Int) (fresh : String) (store : List Row) (f : String)
    (h : requiredFields.find? (fun g => fieldMissing payload g) = some f) :
    handleMessage isOpen clients ws (some ⟨"ADD_PRODUCT", payload⟩)
        dbOk now fresh store =
      (store, [(ws, .errorMsg ("Missing or empty required field: " ++ f))]) := by
  simp [handleMessage, handleAdd, h]

/-- C4 amended witness: a payload with an empty name fails on the
field name. -/
theorem c4_amended_validation_failure_witness :
    (requiredFields.find?
        (fun g => fieldMissing [("name", Value.vStr "  ")] g) = some "name") ∧
    handleMessage (fun _ => true) [0, 1] 0
        (some ⟨"ADD_PRODUCT", [("name", Value.vStr "  ")]⟩) true 100 "f1" [] =
      ([], [(0, .errorMsg ("Missing or empty required field: " ++ "name"))]) :=
  ⟨by decide,
   c4_amended_validation_failure (fun _ => true) [0, 1] 0
     [("name", Value.vStr "  ")] true 100 "f1" [] "name" (by decide)⟩

/-
Claim C5: what an update preserves.
The UPDATE statement of `src/server.js` keys on `id` and does not
assign it, but its SET list includes `sellerId = ?` bound from the
client payload, so ownership can be reassigned.
-/

/-- A stored listing owned by u1. -/
def c5Row : Row where
  id := .vStr "p1"
  name := .vStr "Camera"
  category := .vStr "Electronics"
  price := .vNum 1000
  description := .vStr "x"
  condition := .vStr "New"
  negotiable := .vNum 0
  location := .vStr "Lagos"
  paymentOption := .vStr "Cash"
  sellerWhatsApp := .vStr "080"
  sellerId := .vStr "u1"
  imageUrl := .vStr "/a.jpg"
  timestamp := .vNum 1

/-- An update of p1 claiming sellerId u2. -/
def c5Payload : Obj :=
  [("id", .vStr "p1"), ("name", .vStr "Camera"),
   ("category", .vStr "Electronics"), ("price", .vNum 1000),
   ("description", .vStr "x"), ("condition", .vStr "New"),
   ("location", .vStr "Lagos"), ("paymentOption", .vStr "Cash"),
   ("sellerWhatsApp", .vStr "080"), ("sellerId", .vStr "u2"),
   ("imageUrl", .vStr "/a.jpg"), ("timestamp", .vNum 2)]

/-- C5 counterexample: a successful UpdateListing (its ack is
delivered) changes the stored sellerId of the existing listing from
u1 to the u2 sent by the client — an update can reassign ownership. -/
theorem c5_counterexample_update_reassigns_seller :
    ((handleMessage (fun _ => true) [0] 0 (some ⟨"UPDATE_PRODUCT", c5Payload⟩)
        true 50 "f" [c5Row]).1.map Row.sellerId = [Value.vStr "u2"]) ∧
    c5Row.sellerId = Value.vStr "u1" ∧
    (0, OutMsg.updateSuccess (.vStr "p1")) ∈
      (handleMessage (fun _ => true) [0] 0 (some ⟨"UPDATE_PRODUCT", c5Payload⟩)
        true 50 "f" [c5Row]).2 := by
  decide

/-- C5 amended: a successful update rewrites exactly the rows whose id
matches the payload id; the rewrite preserves the row id but sets
sellerId to the payload value, so ownership follows the client
payload rather than being immutable. -/
theorem c5_amended_update_effect (isOpen : Nat → Bool) (clients : List Nat)
    (ws : Nat) (payload : Obj) (now : Int) (fresh : String)
    (store : List Row) (r0 : Row)
    (hid : truthyProp payload "id" = true) :
    (handleMessage isOpen clients ws (some ⟨"UPDATE_PRODUCT", payload⟩)
        true now fresh store).1 =
      store.map (fun r =>
        if r.id = Obj.getD payload "id" then updRow payload now r else r) ∧
    (updRow payload now r0).id = r0.id ∧
    (updRow payload now r0).sellerId = Obj.getD payload "sellerId" := by
  refine ⟨?_, rfl, rfl⟩
  simp [handleMessage, handleUpdate, hid]

/-- C5 amended witness at the concrete C5 scenario. -/
theorem c5_amended_update_effect_witness :
    (truthyProp c5Payload "id" = true) ∧
    ((handleMessage (fun _ => true) [0] 0 (some ⟨"UPDATE_PRODUCT", c5Payload⟩)
        true 50 "f" [c5Row]).1 =
      List.map (fun r =>
        if r.id = Obj.getD c5Payload "id" then updRow c5Payload 50 r else r)
        [c5Row] ∧
     (updRow c5Payload 50 c5Row).id = c5Row.id ∧
     (updRow c5Payload 50 c5Row).sellerId = Obj.getD c5Payload "sellerId") :=
  ⟨by decide,
   c5_amended_update_effect (fun _ => true) [0] 0 c5Payload 50 "f" [c5Row]
     c5Row (by decide)⟩

/-
Claim C6: delete of an absent id.
`src/server.js` runs the DELETE and then unconditionally broadcasts
PRODUCT_DELETED and acks the sender, whether or not a row existed.
-/

/-- C6 counterexample: deleting the absent id ghost from an empty
store yields the normal success ack and no error, but the
PRODUCT_DELETED notification is still broadcast to the other session —
contradicting the claim that no spurious delete notification is
broadcast. -/
theorem c6_counterexample_absent_delete_broadcasts :
    handleMessage (fun _ => true) [0, 1] 0
        (some ⟨"DELETE_PRODUCT", [("id", Value.vStr "ghost")]⟩)
        true 10 "f" [] =
      ([], [(1, .productDeleted (.vStr "ghost")),
            (0, .deleteSuccess (.vStr "ghost"))]) := by
  decide

/-- C6 amended: for any store contents, a delete with a truthy id
produces exactly the PRODUCT_DELETED broadcast to the other open
sessions followed by the success ack to the sender; the outputs are
identical whether the id is present or absent, and never contain an
error. -/
theorem c6_amended_idempotent_delete (isOpen : Nat → Bool)
    (clients : List Nat) (ws : Nat) (payload : Obj) (now : Int)
    (fresh : String) (s1 s2 : List Row) (c : Nat) (t : String)
    (hid : truthyProp payload "id" = true) :
    (handleMessage isOpen clients ws (some ⟨"DELETE_PRODUCT", payload⟩)
        true now fresh s1).2 =
      (handleMessage isOpen clients ws (some ⟨"DELETE_PRODUCT", payload⟩)
        true now fresh s2).2 ∧
    (handleMessage isOpen clients ws (some ⟨"DELETE_PRODUCT", payload⟩)
        true now fresh s1).2 =
      broadcast isOpen clients (some ws)
          (.productDeleted (Obj.getD payload "id"))
        ++ [(ws, .deleteSuccess (Obj.getD payload "id"))] ∧
    (c, OutMsg.errorMsg t) ∉
      (handleMessage isOpen clients ws (some ⟨"DELETE_PRODUCT", payload⟩)
        true now fresh s1).2 := by
  have hshape : ∀ s : List Row,
      (handleMessage isOpen clients ws (some ⟨"DELETE_PRODUCT", payload⟩)
        true now fresh s).2 =
      broadcast isOpen clients (some ws)
          (.productDeleted (Obj.getD payload "id"))
        ++ [(ws, .deleteSuccess (Obj.getD payload "id"))] := by
    intro s
    simp [handleMessage, handleDelete, hid]
  refine ⟨by rw [hshape, hshape], hshape s1, ?_⟩
  rw [hshape]
  intro hmem
  rcases List.mem_append.mp hmem with hb | hs
  · exact absurd (mem_broadcast hb).1 (by simp)
  · simp at hs

/-- C6 amended witness: outputs agree between an empty store and one
holding the listing. -/
theorem c6_amended_idempotent_delete_witness :
    (truthyProp [("id", Value.vStr "p1")] "id" = true) ∧
    ((handleMessage (fun _ => true) [0, 1] 0
        (some ⟨"DELETE_PRODUCT", [("id", Value.vStr "p1")]⟩)
        true 10 "f" []).2 =
      (handleMessage (fun _ => true) [0, 1] 0
        (some ⟨"DELETE_PRODUCT", [("id", Value.vStr "p1")]⟩)
        true 10 "f" [c5Row]).2 ∧
     (handleMessage (fun _ => true) [0, 1] 0
        (some ⟨"DELETE_PRODUCT", [("id", Value.vStr "p1")]⟩)
        true 10 "f" []).2 =
      broadcast (fun _ => true) [0, 1] (some 0)
          (.productDeleted (Obj.getD [("id", Value.vStr "p1")] "id"))
        ++ [(0, .deleteSuccess (Obj.getD [("id", Value.vStr "p1")] "id"))] ∧
     (1, OutMsg.errorMsg "Product not found.") ∉
      (handleMessage (fun _ => true) [0, 1] 0
        (some ⟨"DELETE_PRODUCT", [("id", Value.vStr "p1")]⟩)
        true 10 "f" []).2) :=
  ⟨by decide,
   c6_amended_idempotent_delete (fun _ => true) [0, 1] 0
     [("id", Value.vStr "p1")] 10 "f" [] [c5Row] 1 "Product not found."
     (by decide)⟩

/-
Claim C8: unrecognized command kinds.
The `src/server.js` switch has a default case sending a sender-only
error naming the type; the part_002 variant has no default at all and
sends nothing for an unknown type.
-/

/-- C8 counterexample: the part_002 variant, given the unrecognized
kind FROBNICATE, sends nothing at all — in particular no sender-only
error naming the kind. -/
theorem c8_counterexample_part002_silent_unknown :
    handleMessageP2 (fun _ => true) [0, 1] 0
        (some { type_ := "FROBNICATE", data := .prim (.vStr "x") })
        true [] =
      ([], []) := by
  decide

/-- C8 amended: in the canonical `src/server.js` handler, an envelope
whose kind is none of the five recognized commands yields exactly one
sender-only error naming the kind, with the store unchanged and no
broadcast; the part_002 and part_003 variants instead send nothing at
all for an unrecognized kind. -/
theorem c8_amended_unknown_kind (isOpen : Nat → Bool) (clients : List Nat)
    (ws : Nat) (payload : Obj) (dbOk : Bool) (now : Int) (fresh : String)
    (store : List Row) (k : String)
    (h1 : k ≠ "ADD_PRODUCT") (h2 : k ≠ "UPDATE_PRODUCT")
    (h3 : k ≠ "DELETE_PRODUCT") (h4 : k ≠ "GET_MY_PRODUCTS")
    (h5 : k ≠ "GET_ALL_PRODUCTS") :
    handleMessage isOpen clients ws (some ⟨k, payload⟩) dbOk now fresh store =
      (store, [(ws, .errorMsg ("Unknown message type: " ++ k))]) := by
  simp [handleMessage, h1, h2, h3, h4, h5]

/-- C8 amended witness at the concrete kind FROBNICATE. -/
theorem c8_amended_unknown_kind_witness :
    (("FROBNICATE" : String) ≠ "ADD_PRODUCT") ∧
    (("FROBNICATE" : String) ≠ "UPDATE_PRODUCT") ∧
    (("FROBNICATE" : String) ≠ "DELETE_PRODUCT") ∧
    (("FROBNICATE" : String) ≠ "GET_MY_PRODUCTS") ∧
    (("FROBNICATE" : String) ≠ "GET_ALL_PRODUCTS") ∧
    handleMessage (fun _ => true) [0, 1] 0
        (some ⟨"FROBNICATE", []⟩) true 10 "f" [] =
      ([], [(0, .errorMsg ("Unknown message type: " ++ "FROBNICATE"))]) :=
  ⟨by decide, by decide, by decide, by decide, by decide,
   c8_amended_unknown_kind (fun _ => true) [0, 1] 0 [] true 10 "f" []
     "FROBNICATE" (by decide) (by decide) (by decide) (by decide) (by decide)⟩

/-
Claim C3: broadcast exclusion.
In `src/server.js` every notification goes through the broadcast
helper with the sender excluded, and the sender gets only an ack; the
part_002 and part_003 variants broadcast to every open session with
no exclusion.
-/

theorem singleton_no_notify {ws : Nat} {a0 : OutMsg}
    (hna : isNotify a0 = false) :
    ∀ c m, (c, m) ∈ [(ws, a0)] → isNotify m = false := by
  intro c m hm
  simp only [List.mem_singleton] at hm
  injection hm with h1 h2
  subst h2
  exact hna

theorem handleGetMy_no_notify {ws : Nat} {payload : Obj} {dbOk : Bool}
    {store : List Row} :
    ∀ c m, (c, m) ∈ (handleGetMy ws payload dbOk store).2 →
      isNotify m = false := by
  intro c m h
  unfold handleGetMy at h
  split at h
  · simp only [List.mem_singleton] at h
    injection h with h1 h2
    subst h2
    rfl
  · split at h <;>
    · simp only [List.mem_singleton] at h
      injection h with h1 h2
      subst h2
      rfl

theorem handleGetAll_no_notify {ws : Nat} {dbOk : Bool} {store : List Row} :
    ∀ c m, (c, m) ∈ (handleGetAll ws dbOk store).2 → isNotify m = false := by
  intro c m h
  unfold handleGetAll at h
  split at h <;>
  · simp only [List.mem_singleton] at h
    injection h with h1 h2
    subst h2
    rfl

/-- Shape of the outputs of the message handler: either a write
succeeded and the outputs are a broadcast (excluding the sender)
followed by the ack to the sender, or no output is a notification. -/
theorem handleMessage_shape (isOpen : Nat → Bool) (clients : List Nat)
    (ws : Nat) (raw : Option Envelope) (dbOk : Bool) (now : Int)
    (fresh : String) (store : List Row) :
    (∃ m0 a0,
      (handleMessage isOpen clients ws raw dbOk now fresh store).2 =
        broadcast isOpen clients (some ws) m0 ++ [(ws, a0)] ∧
      isAck a0 = true ∧ isNotify a0 = false) ∨
    (∀ c m,
      (c, m) ∈ (handleMessage isOpen clients ws raw dbOk now fresh store).2 →
      isNotify m = false) := by
  cases raw with
  | none => exact Or.inr (singleton_no_notify rfl)
  | some env =>
    by_cases t1 : env.type_ = "ADD_PRODUCT"
    · cases hf : requiredFields.find? (fun f => fieldMissing env.payload f) with
      | some f =>
        right
        simp only [handleMessage, t1, if_true, handleAdd, hf]
        exact singleton_no_notify rfl
      | none =>
        cases dbOk with
        | true =>
          left
          exact ⟨.productAdded (addedObj env.payload now fresh),
                 .addSuccess (addRowId env.payload fresh),
                 by simp [handleMessage, t1, handleAdd, hf], rfl, rfl⟩
        | false =>
          right
          simp only [handleMessage, t1, if_true, handleAdd, hf,
            Bool.false_eq_true, if_false]
          exact singleton_no_notify rfl
    · by_cases t2 : env.type_ = "UPDATE_PRODUCT"
      · by_cases hid : truthyProp env.payload "id" = true
        · cases dbOk with
          | true =>
            left
            exact ⟨.productUpdated (updatedObj env.payload now),
                   .updateSuccess (Obj.getD env.payload "id"),
                   by simp [handleMessage, t1, t2, handleUpdate, hid], rfl, rfl⟩
          | false =>
            right
            simp only [handleMessage, t1, t2, if_false, if_true, handleUpdate,
              hid, Bool.not_true, Bool.false_eq_true]
            exact singleton_no_notify rfl
        · right
          have hid2 : truthyProp env.payload "id" = false :=
            Bool.eq_false_iff.mpr hid
          simp only [handleMessage, t1, t2, if_false, if_true, handleUpdate,
            hid2, Bool.not_false, if_true]
          exact singleton_no_notify rfl
      · by_cases t3 : env.type_ = "DELETE_PRODUCT"
        · by_cases hid : truthyProp env.payload "id" = true
          · cases dbOk with
            | true =>
              left
              exact ⟨.productDeleted (Obj.getD env.payload "id"),
                     .deleteSuccess (Obj.getD env.payload "id"),
                     by simp [handleMessage, t1, t2, t3, handleDelete, hid],
                     rfl, rfl⟩
            | false =>
              right
              simp only [handleMessage, t1, t2, t3, if_false, if_true,
                handleDelete, hid, Bool.not_true, Bool.false_eq_true]
              exact singleton_no_notify rfl
          · right
            have hid2 : truthyProp env.payload "id" = false :=
              Bool.eq_false_iff.mpr hid
            simp only [handleMessage, t1, t2, t3, if_false, if_true,
              handleDelete, hid2, Bool.not_false, if_true]
            exact singleton_no_notify rfl
        · by_cases t4 : env.type_ = "GET_MY_PRODUCTS"
          · right
            simp only [handleMessage, t1, t2, t3, t4, if_false, if_true]
            exact handleGetMy_no_notify
          · by_cases t5 : env.type_ = "GET_ALL_PRODUCTS"
            · right
              simp only [handleMessage, t1, t2, t3, t4, t5, if_false, if_true]
              exact handleGetAll_no_notify
            · right
              simp only [handleMessage, t1, t2, t3, t4, t5, if_false]
              exact singleton_no_notify rfl

/-- A valid create payload for the C3 scenarios. -/
def c3Payload : Obj :=
  [("id", .vStr "p3"), ("name", .vStr "Desk"),
   ("category", .vStr "Home"), ("price", .vNum 900),
   ("description", .vStr "oak"), ("condition", .vStr "Used"),
   ("location", .vStr "Ibadan"), ("paymentOption", .vStr "Cash"),
   ("sellerWhatsApp", .vStr "081"), ("sellerId", .vStr "u2"),
   ("imageUrl", .vStr "/d.jpg"), ("timestamp", .vNum 7)]

/-- The same listing as part_002 client data. -/
def c3Data : Data2 := .obj
  [("id", .vStr "p3"), ("name", .vStr "Desk"),
   ("category", .vStr "Home"), ("price", .vNum 900),
   ("condition", .vStr "Used"), ("negotiable", .vBool false),
   ("location", .vStr "Ibadan"), ("paymentOption", .vStr "Cash"),
   ("sellerWhatsApp", .vStr "081"), ("sellerId", .vStr "u2"),
   ("imageUrl", .vStr "/d.jpg"), ("timestamp", .vNum 7)]

/-- C3 counterexample: in the part_002 variant a successful create
(the row is inserted) delivers the created notification to the
issuing session 0 itself, because its broadcast helper has no
excluded session — contradicting the claim that the issuer never
receives its own notification. -/
theorem c3_counterexample_sender_gets_own_broadcast :
    (0, OutMsg2.productAdded2 c3Data) ∈
      (handleMessageP2 (fun _ => true) [0, 1] 0
        (some { type_ := "add_product", data := c3Data }) true []).2 ∧
    (handleMessageP2 (fun _ => true) [0, 1] 0
        (some { type_ := "add_product", data := c3Data }) true []).1 =
      [addRowP2 c3Data] := by
  decide

/-- C3 amended: in the canonical `src/server.js` handler, any change
notification produced by processing a message goes to a registered
open session other than the sender, the same notification reaches
every other registered open session, and the sender receives a
success ack; in the part_002 and part_003 variants the notification
is instead sent to every open session, the issuer included. -/
theorem c3_amended_broadcast_exclusion (isOpen : Nat → Bool)
    (clients : List Nat) (ws : Nat) (raw : Option Envelope) (dbOk : Bool)
    (now : Int) (fresh : String) (store : List Row) (c c2 : Nat) (m : OutMsg)
    (h : (c, m) ∈ (handleMessage isOpen clients ws raw dbOk now fresh store).2)
    (hn : isNotify m = true)
    (hc2 : c2 ∈ clients) (h2w : c2 ≠ ws) (h2o : isOpen c2 = true) :
    c ≠ ws ∧ isOpen c = true ∧ c ∈ clients ∧
      (c2, m) ∈ (handleMessage isOpen clients ws raw dbOk now fresh store).2 ∧
      ∃ a, (ws, a) ∈ (handleMessage isOpen clients ws raw dbOk now fresh store).2 ∧
        isAck a = true := by
  rcases handleMessage_shape isOpen clients ws raw dbOk now fresh store with
    ⟨m0, a0, heq, ha, hna⟩ | hno
  · rw [heq] at h ⊢
    rcases List.mem_append.mp h with hb | hs
    · obtain ⟨hm0, hcc, hoc, hex⟩ := mem_broadcast hb
      subst hm0
      refine ⟨fun hh => hex (by rw [hh]), hoc, hcc, ?_,
        ⟨a0, List.mem_append_right _ (List.mem_singleton_self _), ha⟩⟩
      exact List.mem_append_left _
        (broadcast_mem _ hc2 h2o (fun hh => h2w (Option.some.inj hh).symm))
    · exfalso
      simp only [List.mem_singleton] at hs
      injection hs with hs1 hs2
      subst hs2
      rw [hna] at hn
      exact Bool.false_ne_true hn
  · exact absurd hn (by simp [hno c m h])

/-- C3 amended witness: a concrete successful create with three
sessions; session 1 receives the notification, session 2 also
receives it, session 0 (the issuer) gets the ack. -/
theorem c3_amended_broadcast_exclusion_witness :
    ((1, OutMsg.productAdded (addedObj c3Payload 60 "g1")) ∈
      (handleMessage (fun _ => true) [0, 1, 2] 0
        (some ⟨"ADD_PRODUCT", c3Payload⟩) true 60 "g1" []).2) ∧
    (isNotify (OutMsg.productAdded (addedObj c3Payload 60 "g1")) = true) ∧
    (2 ∈ [0, 1, 2]) ∧ ((2 : Nat) ≠ 0) ∧ ((fun (_ : Nat) => true) 2 = true) ∧
    ((1 : Nat) ≠ 0 ∧ (fun (_ : Nat) => true) 1 = true ∧ 1 ∈ [0, 1, 2] ∧
      (2, OutMsg.productAdded (addedObj c3Payload 60 "g1")) ∈
        (handleMessage (fun _ => true) [0, 1, 2] 0
          (some ⟨"ADD_PRODUCT", c3Payload⟩) true 60 "g1" []).2 ∧
      ∃ a, (0, a) ∈
          (handleMessage (fun _ => true) [0, 1, 2] 0
            (some ⟨"ADD_PRODUCT", c3Payload⟩) true 60 "g1" []).2 ∧
        isAck a = true) :=
  ⟨by decide, by decide, by decide, by decide, by decide,
   c3_amended_broadcast_exclusion (fun _ => true) [0, 1, 2] 0
     (some ⟨"ADD_PRODUCT", c3Payload⟩) true 60 "g1" [] 1 2
     (OutMsg.productAdded (addedObj c3Payload 60 "g1"))
     (by decide) (by decide) (by decide) (by decide) (by decide)⟩

/-
Claim C7: initial snapshot on connection.
-/

/-- C7: for any reachable state (any prior trace not involving the
new session), the connect event delivers to the new session — which
until then has received nothing — exactly one message: the full
catalog snapshot, whose contents are a permutation of the store
(exactly the present listings) sorted by recency descending; the
connect event sends nothing to any other session. -/
theorem c7_snapshot_on_connect (st0 : ServerState) (evs : List Event)
    (sid : Nat) (h1 : sid ∉ st0.clients)
    (h2 : ∀ e ∈ evs, e.actor ≠ sid) :
    deliveredTo sid (run st0 (evs ++ [Event.connect sid true])).2 =
      [OutMsg.allProducts (sortDesc (run st0 evs).1.store)] ∧
    (step (run st0 evs).1 (Event.connect sid true)).2 =
      [(sid, OutMsg.allProducts (sortDesc (run st0 evs).1.store))] ∧
    List.Perm (sortDesc (run st0 evs).1.store) (run st0 evs).1.store ∧
    List.Sorted recencyGe (sortDesc (run st0 evs).1.store) := by
  have hfresh := run_fresh h1 h2
  have hstep : (step (run st0 evs).1 (Event.connect sid true)).2 =
      [(sid, OutMsg.allProducts (sortDesc (run st0 evs).1.store))] := rfl
  refine ⟨?_, hstep, List.perm_insertionSort _ _,
    List.sorted_insertionSort _ _⟩
  rw [run_append, deliveredTo_append, hfresh.1, List.nil_append]
  simp [run, hstep, deliveredTo]

/-- Concrete rows for the C7 scenario (out of recency order in the
store). -/
def c7Row1 : Row where
  id := .vStr "a"
  name := .vStr "Older"
  category := .vStr "X"
  price := .vNum 1
  description := .vStr "o"
  condition := .vStr "New"
  negotiable := .vNum 0
  location := .vStr "L"
  paymentOption := .vStr "C"
  sellerWhatsApp := .vStr "080"
  sellerId := .vStr "u1"
  imageUrl := .vStr "/o.jpg"
  timestamp := .vNum 1

/-- Second concrete row, more recent. -/
def c7Row2 : Row where
  id := .vStr "b"
  name := .vStr "Newer"
  category := .vStr "X"
  price := .vNum 2
  description := .vStr "n"
  condition := .vStr "New"
  negotiable := .vNum 0
  location := .vStr "L"
  paymentOption := .vStr "C"
  sellerWhatsApp := .vStr "080"
  sellerId := .vStr "u2"
  imageUrl := .vStr "/n.jpg"
  timestamp := .vNum 5

/-- Initial state of the C7 scenario. -/
def c7State : ServerState where
  clients := [0]
  store := [c7Row1, c7Row2]
  isOpen := fun _ => true

/-- Prior trace of the C7 scenario: session 0 asks for the catalog. -/
def c7Events : List Event :=
  [.message 0 (some ⟨"GET_ALL_PRODUCTS", []⟩) true 0 "g"]

/-- C7 witness at the concrete scenario with session 7 connecting. -/
theorem c7_snapshot_on_connect_witness :
    (7 ∉ c7State.clients) ∧ (∀ e ∈ c7Events, e.actor ≠ 7) ∧
    (deliveredTo 7 (run c7State (c7Events ++ [Event.connect 7 true])).2 =
      [OutMsg.allProducts (sortDesc (run c7State c7Events).1.store)] ∧
     (step (run c7State c7Events).1 (Event.connect 7 true)).2 =
      [(7, OutMsg.allProducts (sortDesc (run c7State c7Events).1.store))] ∧
     List.Perm (sortDesc (run c7State c7Events).1.store)
       (run c7State c7Events).1.store ∧
     List.Sorted recencyGe (sortDesc (run c7State c7Events).1.store)) :=
  ⟨by decide, by decide,
   c7_snapshot_on_connect c7State c7Events 7 (by decide) (by decide)⟩

/-
Claim C9: processing messages never changes the client set.
-/

/-- C9: running any trace consisting only of inbound messages —
well-formed or malformed, any command kind, success or failure —
leaves the registered client set exactly as it was; only connect and
close events (the other two event kinds of the gateway) touch it. -/
theorem c9_messages_preserve_clients (st : ServerState) (evs : List Event)
    (h : ∀ e ∈ evs, e.isMsg = true) :
    (run st evs).1.clients = st.clients := by
  induction evs generalizing st with
  | nil => rfl
  | cons e t ih =>
    have he := h e (List.mem_cons_self e t)
    have hstep : (step st e).1.clients = st.clients := by
      cases e with
      | connect sid dbOk => simp [Event.isMsg] at he
      | disconnect sid => simp [Event.isMsg] at he
      | message sid raw dbOk now fresh => rfl
    calc (run st (e :: t)).1.clients
        = (run (step st e).1 t).1.clients := by simp [run]
      _ = (step st e).1.clients :=
        ih (step st e).1 (fun e2 h2 => h e2 (List.mem_cons_of_mem e h2))
      _ = st.clients := hstep

/-- C9 witness: a malformed message, a failing create, a successful
create and an unknown kind leave the client set [0, 1] unchanged. -/
theorem c9_messages_preserve_clients_witness :
    (∀ e ∈ ([.message 0 none true 5 "w1",
             .message 0 (some ⟨"ADD_PRODUCT", c3Payload⟩) false 6 "w2",
             .message 0 (some ⟨"ADD_PRODUCT", c3Payload⟩) true 7 "w3",
             .message 1 (some ⟨"BOGUS", []⟩) true 8 "w4"] : List Event),
        e.isMsg = true) ∧
    (run { clients := [0, 1], store := [], isOpen := fun _ => true }
        [.message 0 none true 5 "w1",
         .message 0 (some ⟨"ADD_PRODUCT", c3Payload⟩) false 6 "w2",
         .message 0 (some ⟨"ADD_PRODUCT", c3Payload⟩) true 7 "w3",
         .message 1 (some ⟨"BOGUS", []⟩) true 8 "w4"]).1.clients =
      ({ clients := [0, 1], store := [], isOpen := fun _ => true } :
        ServerState).clients :=
  ⟨by decide,
   c9_messages_preserve_clients
     { clients := [0, 1], store := [], isOpen := fun _ => true }
     [.message 0 none true 5 "w1",
      .message 0 (some ⟨"ADD_PRODUCT", c3Payload⟩) false 6 "w2",
      .message 0 (some ⟨"ADD_PRODUCT", c3Payload⟩) true 7 "w3",
      .message 1 (some ⟨"BOGUS", []⟩) true 8 "w4"] (by decide)⟩

/-
Claim C10: the broadcast record is the spread client payload, not the
stored row.
-/

theorem Obj.get_cons_self (o : Obj) (k : String) (v : Value) :
    Obj.get ((k, v) :: o) k = some v := by
  simp [Obj.get, List.lookup]

theorem Obj.get_cons_ne (o : Obj) (k1 k : String) (v : Value)
    (h : k ≠ k1) : Obj.get ((k1, v) :: o) k = Obj.get o k := by
  have hb : (k == k1) = false := beq_eq_false_iff_ne.mpr h
  simp [Obj.get, List.lookup, hb]

/-- C10: a successful create broadcasts exactly the client payload
spread with the server-chosen id, negotiable flag and timestamp
overriding it, and a successful update broadcasts the payload spread
with negotiable and timestamp — any other key of the payload,
including keys outside the Listing schema, is forwarded verbatim to
every other open session. -/
theorem c10_broadcast_payload_spread (isOpen : Nat → Bool)
    (clients : List Nat) (ws c : Nat) (payload : Obj) (now : Int)
    (fresh : String) (store : List Row) (k : String)
    (hv : requiredFields.find? (fun f => fieldMissing payload f) = none)
    (hid : truthyProp payload "id" = true)
    (hk1 : k ≠ "id") (hk2 : k ≠ "negotiable") (hk3 : k ≠ "timestamp")
    (hc : c ∈ clients) (hcw : c ≠ ws) (hco : isOpen c = true) :
    (handleMessage isOpen clients ws (some ⟨"ADD_PRODUCT", payload⟩)
        true now fresh store).2 =
      broadcast isOpen clients (some ws)
          (.productAdded (addedObj payload now fresh))
        ++ [(ws, .addSuccess (addRowId payload fresh))] ∧
    Obj.get (addedObj payload now fresh) "id" =
      some (addRowId payload fresh) ∧
    Obj.get (addedObj payload now fresh) "negotiable" =
      some (negVal payload) ∧
    Obj.get (addedObj payload now fresh) "timestamp" =
      some (tsOf payload now) ∧
    Obj.get (addedObj payload now fresh) k = Obj.get payload k ∧
    (c, OutMsg.productAdded (addedObj payload now fresh)) ∈
      (handleMessage isOpen clients ws (some ⟨"ADD_PRODUCT", payload⟩)
        true now fresh store).2 ∧
    (handleMessage isOpen clients ws (some ⟨"UPDATE_PRODUCT", payload⟩)
        true now fresh store).2 =
      broadcast isOpen clients (some ws)
          (.productUpdated (updatedObj payload now))
        ++ [(ws, .updateSuccess (Obj.getD payload "id"))] ∧
    Obj.get (updatedObj payload now) "negotiable" = some (negVal payload) ∧
    Obj.get (updatedObj payload now) "timestamp" = some (tsOf payload now) ∧
    Obj.get (updatedObj payload now) k = Obj.get payload k ∧
    (c, OutMsg.productUpdated (updatedObj payload now)) ∈
      (handleMessage isOpen clients ws (some ⟨"UPDATE_PRODUCT", payload⟩)
        true now fresh store).2 := by
  have hexc : (some ws : Option Nat) ≠ some c :=
    fun hh => hcw (Option.some.inj hh).symm
  have ha1 : (handleMessage isOpen clients ws (some ⟨"ADD_PRODUCT", payload⟩)
      true now fresh store).2 =
      broadcast isOpen clients (some ws)
          (.productAdded (addedObj payload now fresh))
        ++ [(ws, .addSuccess (addRowId payload fresh))] := by
    simp [handleMessage, handleAdd, hv]
  have hu1 : (handleMessage isOpen clients ws (some ⟨"UPDATE_PRODUCT", payload⟩)
      true now fresh store).2 =
      broadcast isOpen clients (some ws)
          (.productUpdated (updatedObj payload now))
        ++ [(ws, .updateSuccess (Obj.getD payload "id"))] := by
    simp [handleMessage, handleUpdate, hid]
  refine ⟨ha1, rfl, rfl, rfl, ?_, ?_, hu1, rfl, rfl, ?_, ?_⟩
  · simp only [addedObj]
    rw [Obj.get_cons_ne _ _ _ _ hk1, Obj.get_cons_ne _ _ _ _ hk2,
        Obj.get_cons_ne _ _ _ _ hk3]
  · rw [ha1]
    exact List.mem_append_left _ (broadcast_mem _ hc hco hexc)
  · simp only [updatedObj]
    rw [Obj.get_cons_ne _ _ _ _ hk2, Obj.get_cons_ne _ _ _ _ hk3]
  · rw [hu1]
    exact List.mem_append_left _ (broadcast_mem _ hc hco hexc)

/-- A valid payload carrying an extra key outside the Listing schema. -/
def c10Payload : Obj :=
  [("id", .vStr "p7"), ("name", .vStr "Lamp"),
   ("category", .vStr "Home"), ("price", .vNum 20),
   ("description", .vStr "y"), ("condition", .vStr "Used"),
   ("location", .vStr "Enugu"), ("paymentOption", .vStr "Cash"),
   ("sellerWhatsApp", .vStr "082"), ("sellerId", .vStr "u3"),
   ("imageUrl", .vStr "/l.jpg"), ("timestamp", .vNum 11),
   ("bonusField", .vStr "zzz")]

/-- C10 witness at a concrete payload with the extra key bonusField. -/
theorem c10_broadcast_payload_spread_witness :
    (requiredFields.find? (fun f => fieldMissing c10Payload f) = none) ∧
    (truthyProp c10Payload "id" = true) ∧
    (("bonusField" : String) ≠ "id") ∧
    (("bonusField" : String) ≠ "negotiable") ∧
    (("bonusField" : String) ≠ "timestamp") ∧
    (1 ∈ [0, 1]) ∧ ((1 : Nat) ≠ 0) ∧ ((fun (_ : Nat) => true) 1 = true) ∧
    ((handleMessage (fun _ => true) [0, 1] 0
        (some ⟨"ADD_PRODUCT", c10Payload⟩) true 42 "g7" []).2 =
      broadcast (fun _ => true) [0, 1] (some 0)
          (.productAdded (addedObj c10Payload 42 "g7"))
        ++ [(0, .addSuccess (addRowId c10Payload "g7"))] ∧
     Obj.get (addedObj c10Payload 42 "g7") "id" =
       some (addRowId c10Payload "g7") ∧
     Obj.get (addedObj c10Payload 42 "g7") "negotiable" =
       some (negVal c10Payload) ∧
     Obj.get (addedObj c10Payload 42 "g7") "timestamp" =
       some (tsOf c10Payload 42) ∧
     Obj.get (addedObj c10Payload 42 "g7") "bonusField" =
       Obj.get c10Payload "bonusField" ∧
     (1, OutMsg.productAdded (addedObj c10Payload 42 "g7")) ∈
       (handleMessage (fun _ => true) [0, 1] 0
         (some ⟨"ADD_PRODUCT", c10Payload⟩) true 42 "g7" []).2 ∧
     (handleMessage (fun _ => true) [0, 1] 0
        (some ⟨"UPDATE_PRODUCT", c10Payload⟩) true 42 "g7" []).2 =
      broadcast (fun _ => true) [0, 1] (some 0)
          (.productUpdated (updatedObj c10Payload 42))
        ++ [(0, .updateSuccess (Obj.getD c10Payload "id"))] ∧
     Obj.get (updatedObj c10Payload 42) "negotiable" =
       some (negVal c10Payload) ∧
     Obj.get (updatedObj c10Payload 42) "timestamp" =
       some (tsOf c10Payload 42) ∧
     Obj.get (updatedObj c10Payload 42) "bonusField" =
       Obj.get c10Payload "bonusField" ∧
     (1, OutMsg.productUpdated (updatedObj c10Payload 42)) ∈
       (handleMessage (fun _ => true) [0, 1] 0
         (some ⟨"UPDATE_PRODUCT", c10Payload⟩) true 42 "g7" []).2) :=
  ⟨by decide, by decide, by decide, by decide, by decide, by decide,
   by decide, by decide,
   c10_broadcast_payload_spread (fun _ => true) [0, 1] 0 1 c10Payload 42
     "g7" [] "bonusField" (by decide) (by decide) (by decide) (by decide)
     (by decide) (by decide) (by decide) (by decide)⟩

end Marketserver
